import Mathlib

/-!
Verification development for the ChainLens backend (`server-simple.js`).

The file shallowly embeds the pieces of the program that the checked
properties talk about:

* the string-matching intent classifier `getBlockchainContext`,
* the `GeminiMCPServer` connection/fallback supervisor
  (`start`, `startHealthCheck`, `enableFallbackMode`, `stopHealthCheck`,
  `restart`, `getStatus`) together with the event loop's interval timers,
* the chat entry point `getAIResponse` with its quick-command handlers and
  the canned fallback responder `getFallbackResponse`,
* the wallet-data helpers `fetchWalletContext` and `summarizeWalletCounts`,
* the numeric conversions (`toFixed(6)` displays, `Math.round` Gwei).

External effects (the Gemini client, the Tatum HTTP API, timers) are made
explicit: fallible network calls become `Except String _` valued oracles, and
`setInterval`/`clearInterval` become bookkeeping of live timer handles.
JavaScript strings are modelled as `List Char` (all inputs of interest are
ASCII, where `toLowerCase`/`toUpperCase` agree with `Char.toLower`/
`Char.toUpper`), and JavaScript numbers as `ℚ`; every concrete value the
theorems evaluate is exactly representable as an IEEE double, so the rational
computation coincides with the JavaScript one.
-/

namespace ChainLens

set_option maxRecDepth 1000000

/-! ### JavaScript string primitives -/

/-- `message.toLowerCase()` as a character list (ASCII inputs). -/
def lcList (s : String) : List Char := s.data.map Char.toLower

/-- `chain.toUpperCase()` (ASCII inputs). -/
def upperStr (s : String) : String := String.mk (s.data.map Char.toUpper)

/-- Does `needle` occur as a contiguous run inside the list? -/
def hasRun (needle : List Char) : List Char → Bool
  | [] => needle.isEmpty
  | c :: cs => needle.isPrefixOf (c :: cs) || hasRun needle cs

/-- `lower.includes(kw)` : substring containment on an already-lowercased
character list. -/
def inc (l : List Char) (kw : String) : Bool := hasRun kw.data l

/-! ### The address pattern `/0x[a-fA-F0-9]{40}/`

`getBlockchainContext` runs the pattern against the *lowercased* message, so
on the actual input the letter range degenerates to `a`-`f`.  `findAddr`
returns the leftmost match, as `String.prototype.match` does. -/

/-- Hex digit as it can occur in a lowercased message. -/
def isHexLower (c : Char) : Bool :=
  (decide ('0' ≤ c) && decide (c ≤ '9')) || (decide ('a' ≤ c) && decide (c ≤ 'f'))

/-- Try to match `0x` followed by exactly 40 hex characters at the head. -/
def matchAddrAt : List Char → Option (List Char)
  | '0' :: 'x' :: rest =>
      if (rest.take 40).length = 40 && (rest.take 40).all isHexLower then
        some ('0' :: 'x' :: rest.take 40)
      else none
  | _ => none

/-- Leftmost match of the address pattern, `lowerMessage.match(/0x[a-fA-F0-9]{40}/)`. -/
def findAddr : List Char → Option (List Char)
  | [] => none
  | c :: cs =>
      match matchAddrAt (c :: cs) with
      | some a => some a
      | none => findAddr cs

/-- Hex digit of either case: used to state how an address appears verbatim in
the original (non-lowercased) message. -/
def isHexAny (c : Char) : Bool :=
  isHexLower c || (decide ('A' ≤ c) && decide (c ≤ 'F'))

/-- Match `0x` + 40 hex characters (either case) at the head: the pattern as it
would read off the raw message text. -/
def matchAddrAnyAt : List Char → Option (List Char)
  | '0' :: 'x' :: rest =>
      if (rest.take 40).length = 40 && (rest.take 40).all isHexAny then
        some ('0' :: 'x' :: rest.take 40)
      else none
  | _ => none

/-- Leftmost occurrence of an address in the raw message text (hex digits of
either case): "the address exactly as it appears in the message". -/
def findAddrAny : List Char → Option (List Char)
  | [] => none
  | c :: cs =>
      match matchAddrAnyAt (c :: cs) with
      | some a => some a
      | none => findAddrAny cs

/-! ### The classifier `getBlockchainContext` -/

/-- The `type` strings produced by `getBlockchainContext`. -/
inductive CtxType
  | portfolio
  | nft
  | wallet
  | chain
  | gas
  | chain_info
  | general
deriving DecidableEq

/-- The object returned by `getBlockchainContext`.  Branches that do not set
`address`/`multiChain` leave them `undefined`, i.e. `none`/`false`; the
`general` branch also leaves `chain` undefined. -/
structure Context where
  needsData : Bool
  chain : Option String
  type : CtxType
  address : Option (List Char)
  multiChain : Bool
deriving DecidableEq

/-- The `isMultiChain` disjunction of `getBlockchainContext` (the fixed set of
multi-chain phrases checked on the lowercased message). -/
def isMultiChainMsg (lower : List Char) : Bool :=
  inc lower "all chain" ||
  inc lower "multi-chain" ||
  inc lower "multi chain" ||
  inc lower "across all" ||
  inc lower "every chain" ||
  inc lower "all networks" ||
  inc lower "multi" ||
  inc lower "all chains"

/-- The address-bearing arm of `getBlockchainContext`: portfolio keywords,
then NFT keywords, then wallet/balance keywords, then the default. -/
def classifyAddress (lower : List Char) (address : List Char) : Context :=
  let isMultiChain := isMultiChainMsg lower
  if inc lower "portfolio" || inc lower "portofolio" ||
     inc lower "analyze portfolio" || inc lower "portfolio analysis" then
    ⟨true, some "ethereum", .portfolio, some address,
      isMultiChain || inc lower "portfolio"⟩
  else if inc lower "nft" || inc lower "nft analysis" || inc lower "nft gallery" ||
          inc lower "nft collection" || inc lower "collection" then
    ⟨true, some "ethereum", .nft, some address,
      isMultiChain || inc lower "nft"⟩
  else if inc lower "wallet" || inc lower "balance" || inc lower "analysis" ||
          inc lower "check" || inc lower "analyze" || inc lower "wallet analysis" then
    ⟨true, some "ethereum", .wallet, some address,
      isMultiChain || inc lower "wallet"⟩
  else
    ⟨true, some "ethereum", .wallet, some address, isMultiChain⟩

/-- The address-free arm of `getBlockchainContext`: chain-specific queries in
source order, then gas, then chain info, then general chat. -/
def classifyNoAddress (lower : List Char) : Context :=
  if inc lower "ethereum" || inc lower "eth" then
    ⟨true, some "ethereum", .chain, none, false⟩
  else if inc lower "polygon" || inc lower "matic" then
    ⟨true, some "polygon", .chain, none, false⟩
  else if inc lower "bsc" || inc lower "bnb" then
    ⟨true, some "bsc", .chain, none, false⟩
  else if inc lower "arbitrum" || inc lower "arb" then
    ⟨true, some "arbitrum", .chain, none, false⟩
  else if inc lower "base" then
    ⟨true, some "base", .chain, none, false⟩
  else if inc lower "optimism" || inc lower "op" then
    ⟨true, some "optimism", .chain, none, false⟩
  else if inc lower "gas" || inc lower "fee" || inc lower "gas price" ||
          inc lower "gas cost" then
    ⟨true, some "ethereum", .gas, none, false⟩
  else if inc lower "chains" || inc lower "chain info" || inc lower "supported chains" ||
          inc lower "blockchain info" || inc lower "chain" then
    ⟨false, some "ethereum", .chain_info, none, false⟩
  else
    ⟨false, none, .general, none, false⟩

/-- `GeminiMCPServer.getBlockchainContext(message)`. -/
def getBlockchainContext (message : String) : Context :=
  let lower := lcList message
  match findAddr lower with
  | some address => classifyAddress lower address
  | none => classifyNoAddress lower

/-! ### The `GeminiMCPServer` supervisor

The mutable fields of the class instance (`this.…`) become `SupervisorState`.
`World` adds the event loop's set of live interval timers: `setInterval`
returns a fresh handle and registers it, `clearInterval` deregisters it.
The Gemini probe (`generateContent` on the test prompt) is an explicit
`Except String String` argument: `.ok text` for a reply, `.error msg` for a
thrown/rejected call. -/

structure SupervisorState where
  isConnected : Bool
  geminiModel : Bool
  requestId : Nat
  retryCount : Nat
  maxRetries : Nat
  healthCheckInterval : Option Nat
  fallbackMode : Bool
  connectionAttempts : Nat
  maxConnectionAttempts : Nat
  lastError : Option String
deriving DecidableEq

structure World where
  sup : SupervisorState
  timers : List Nat
  nextTimer : Nat
deriving DecidableEq

/-- The `constructor()` field initialisation. -/
def initSup : SupervisorState :=
  { isConnected := false, geminiModel := false, requestId := 0, retryCount := 0
    maxRetries := 3, healthCheckInterval := none, fallbackMode := false
    connectionAttempts := 0, maxConnectionAttempts := 20, lastError := none }

/-- A freshly constructed server in an event loop with no timers. -/
def initWorld : World := { sup := initSup, timers := [], nextTimer := 0 }

/-- `stopHealthCheck()`: `clearInterval` on the stored handle, if any. -/
def stopHealthCheck (w : World) : World :=
  match w.sup.healthCheckInterval with
  | some id =>
      { w with sup := { w.sup with healthCheckInterval := none }
               timers := w.timers.erase id }
  | none => w

/-- `startHealthCheck()`: clear any existing interval, then `setInterval` a
fresh recurring probe and store its handle. -/
def startHealthCheck (w : World) : World :=
  let w1 := stopHealthCheck w
  { w1 with sup := { w1.sup with healthCheckInterval := some w1.nextTimer }
            timers := w1.nextTimer :: w1.timers
            nextTimer := w1.nextTimer + 1 }

/-- `enableFallbackMode(reason)`. -/
def enableFallbackMode (reason : String) (w : World) : World :=
  { w with sup := { w.sup with fallbackMode := true, isConnected := false
                               lastError := some reason } }

/-- `start()`: assign the model handle, run the probe; on success set the
connected flags and arm the health check, on any probe failure enable
fallback mode and return `false`.  The outer `try`/`catch` of the source can
only be reached by a fault of the logging itself and is not modelled. -/
def start (probe : Except String String) (w : World) : Bool × World :=
  let w1 := { w with sup := { w.sup with geminiModel := true } }
  match probe with
  | Except.ok _ =>
      let w2 := { w1 with sup := { w1.sup with isConnected := true
                                               fallbackMode := false
                                               retryCount := 0 } }
      (true, startHealthCheck w2)
  | Except.error msg =>
      (false, enableFallbackMode ("Gemini initialization failed: " ++ msg) w1)

/-- `restart()`: stop the health check, reset `isConnected` and the retry
counter, then call `start()` again and return its result. -/
def restart (probe : Except String String) (w : World) : Bool × World :=
  let w1 := stopHealthCheck w
  let w2 := { w1 with sup := { w1.sup with isConnected := false, retryCount := 0 } }
  start probe w2

/-- One firing of the health-check interval callback (only a live interval
fires).  The callback probes when a model handle exists; on rejection it
clears `isConnected` and enables fallback mode, on success it only logs. -/
def healthTick (probe : Except String String) (w : World) : World :=
  if w.sup.healthCheckInterval.isSome then
    if w.sup.geminiModel then
      match probe with
      | Except.ok _ => w
      | Except.error msg =>
          enableFallbackMode ("Health check failed: " ++ msg)
            { w with sup := { w.sup with isConnected := false } }
    else w
  else w

/-- The object literal returned by `getStatus()`. -/
structure Status where
  isConnected : Bool
  fallbackMode : Bool
  lastError : Option String
  retryCount : Nat
  maxRetries : Nat
  hasGeminiModel : Bool
  connectionAttempts : Nat
  maxConnectionAttempts : Nat
deriving DecidableEq

/-- `getStatus()`: a pure snapshot of the supervisor fields. -/
def getStatus (s : SupervisorState) : Status :=
  { isConnected := s.isConnected, fallbackMode := s.fallbackMode
    lastError := s.lastError, retryCount := s.retryCount
    maxRetries := s.maxRetries, hasGeminiModel := s.geminiModel
    connectionAttempts := s.connectionAttempts
    maxConnectionAttempts := s.maxConnectionAttempts }

/-! ### Sequences of supervisor operations -/

/-- The supervisor operations a caller (HTTP routes, chat commands, the
timer) can perform, each carrying the outcome its probe would have. -/
inductive Op
  | doStart (probe : Except String String)
  | startHC
  | tick (probe : Except String String)
  | enableFallback (reason : String)
  | stopHC
  | doRestart (probe : Except String String)
  | readStatus

/-- Effect of one operation on the world (`getStatus` reads only). -/
def applyOp (w : World) : Op → World
  | .doStart p => (start p w).2
  | .startHC => startHealthCheck w
  | .tick p => healthTick p w
  | .enableFallback r => enableFallbackMode r w
  | .stopHC => stopHealthCheck w
  | .doRestart p => (restart p w).2
  | .readStatus => w

/-- The world reached from a freshly constructed server by a call sequence. -/
def run (ops : List Op) : World := ops.foldl applyOp initWorld

/-! ### The chain catalog `CHAIN_CONFIGS` -/

structure ChainConfig where
  name : String
  symbol : String
  decimals : Nat
  apiName : String
deriving DecidableEq

def chainConfig : String → Option ChainConfig
  | "ethereum" => some ⟨"Ethereum", "ETH", 18, "ETH"⟩
  | "polygon" => some ⟨"Polygon", "MATIC", 18, "MATIC"⟩
  | "bsc" => some ⟨"BNB Smart Chain", "BNB", 18, "BSC"⟩
  | "arbitrum" => some ⟨"Arbitrum", "ETH", 18, "ETH"⟩
  | "base" => some ⟨"Base", "ETH", 18, "ETH"⟩
  | "optimism" => some ⟨"Optimism", "ETH", 18, "ETH"⟩
  | _ => none

/-- `Object.keys(CHAIN_CONFIGS)` in insertion order; also the chain list used
by multi-chain wallet fetches. -/
def allChains : List String :=
  ["ethereum", "polygon", "bsc", "arbitrum", "base", "optimism"]

/-- `CHAIN_CONFIGS[chain]?.symbol || chain.toUpperCase()`. -/
def symbolOf (chain : String) : String :=
  match chainConfig chain with
  | some cfg => cfg.symbol
  | none => upperStr chain

/-- `CHAIN_CONFIGS[chain].decimals` (defined for every supported chain; the
routes reject unsupported chains before reading it). -/
def decimalsOf (chain : String) : Nat :=
  match chainConfig chain with
  | some cfg => cfg.decimals
  | none => 0

/-! ### JavaScript numeric conversions

All numbers the theorems evaluate are exactly representable IEEE doubles and
every intermediate JavaScript operation on them is exact, so the arithmetic is
modelled on `ℚ`. -/

/-- `x.toFixed(6)` as a rounding operation: the integer `n` minimising
`|n / 10^6 - x|`, ties to the larger `n` (ECMAScript `Number.prototype.toFixed`);
for the nonnegative inputs that occur this is `⌊x·10^6 + 1/2⌋`. -/
def fix6Int (q : ℚ) : ℤ := ⌊q * 1000000 + 1 / 2⌋

/-- The numeric value `Number(x.toFixed(6))` (exact for these short decimals). -/
def fix6 (q : ℚ) : ℚ := (fix6Int q : ℚ) / 1000000

/-- Zero-pad a numeral to six digits. -/
def pad6 (m : Nat) : String :=
  String.mk (List.replicate (6 - (Nat.repr m).length) '0') ++ Nat.repr m

/-- The string `x.toFixed(6)` for nonnegative `x`: integer part, a dot, and
exactly six fractional digits, trailing zeros kept. -/
def toFixed6Str (q : ℚ) : String :=
  let n := (fix6Int q).toNat
  Nat.repr (n / 1000000) ++ "." ++ pad6 (n % 1000000)

/-- ECMAScript number-to-string (as used by `JSON.stringify` and template
literals) restricted to the nonnegative values with at most six decimal places
that `nativeApprox` can hold: the shortest decimal form, i.e. the fractional
part with its trailing zeros dropped and no fractional part at all for
integers. -/
def jsNumToString (q : ℚ) : String :=
  let n := (⌊q * 1000000⌋).toNat
  let ip := n / 1000000
  let fp := n % 1000000
  if fp = 0 then Nat.repr ip
  else
    let trimmed := ((pad6 fp).data.reverse.dropWhile (fun c => c = '0')).reverse
    Nat.repr ip ++ "." ++ String.mk trimmed

/-- `Math.round` for the nonnegative values in play: `⌊x + 1/2⌋`. -/
def mathRoundNat (q : ℚ) : Nat := (⌊q + 1 / 2⌋).toNat

/-- The wallet route's display value:
`(parseInt(balance, 16) / Math.pow(10, CHAIN_CONFIGS[chain].decimals)).toFixed(6)`
with the parsed balance given in wei. -/
def walletBalanceDisplay (wei : Nat) (chain : String) : String :=
  toFixed6Str ((wei : ℚ) / (10 : ℚ) ^ decimalsOf chain)

/-! ### `fetchWalletContext` and `summarizeWalletCounts` -/

/-- One element of the `results` array: either the success object
`{ chain, native: { wei, symbol }, tokens }` or the per-chain failure object
`{ chain, error }` (no other field). -/
inductive ChainEntry
  | ok (chain : String) (wei : Nat) (symbol : String) (tokens : List String)
  | err (chain : String) (error : String)
deriving DecidableEq

def ChainEntry.chainId : ChainEntry → String
  | .ok c _ _ _ => c
  | .err c _ => c

def ChainEntry.isErr : ChainEntry → Bool
  | .ok _ _ _ _ => false
  | .err _ _ => true

/-- The value returned by `fetchWalletContext`: `chains` is `none` only on the
outer catch, which returns `{ address, error }` without a `chains` array. -/
structure Fetched where
  address : List Char
  chains : Option (List ChainEntry)
deriving DecidableEq

/-- `tokenResp.data?.result || []` with the `.catch` that degrades a failed
token request to an empty list. -/
def tokenListOf (tok : String → Except String (List String)) (chain : String) :
    List String :=
  match tok chain with
  | Except.ok ts => ts
  | Except.error _ => []

/-- The body of the per-chain loop of `fetchWalletContext`: the native-balance
RPC decides success or the `{ chain, error }` entry; the token request is
caught independently. -/
def chainEntryFor (native : String → Except String Nat)
    (tok : String → Except String (List String)) (chain : String) : ChainEntry :=
  match native chain with
  | Except.ok wei => .ok chain wei (symbolOf chain) (tokenListOf tok chain)
  | Except.error e => .err chain e

/-- `fetchWalletContext(address, chains)` with the two Tatum calls as explicit
oracles.  Each chain is fetched inside its own `try`/`catch`, so the loop
always completes and the outer catch is unreachable here. -/
def fetchWalletContext (native : String → Except String Nat)
    (tok : String → Except String (List String))
    (address : List Char) (chains : List String) : Fetched :=
  { address := address, chains := some (chains.map (chainEntryFor native tok)) }

/-- One per-chain record of the summary object. -/
structure ChainSummary where
  nativeSymbol : String
  nativeApprox : ℚ
  tokenCount : Nat
deriving DecidableEq

/-- The result of `summarizeWalletCounts`: `{ note: 'no data' }` when the
input has no `chains` array, otherwise `{ address, chains: {…} }` with the
per-chain map in insertion order. -/
inductive SummaryResult
  | noData
  | data (address : List Char) (chains : List (String × ChainSummary))
deriving DecidableEq

/-- `summary.chains[key] = value`: overwrite an existing key in place, else
append (JavaScript object assignment semantics). -/
def upsert (l : List (String × ChainSummary)) (k : String) (v : ChainSummary) :
    List (String × ChainSummary) :=
  if l.any (fun p => p.1 == k) then
    l.map (fun p => if p.1 == k then (k, v) else p)
  else l ++ [(k, v)]

/-- The summary record built for one entry: token count from the `tokens`
array if present, the native balance divided by `1e18` and passed through
`Number(x.toFixed(6))`, and the symbol defaulting to the uppercased chain id
when the entry has no `native` object. -/
def summVal : ChainEntry → ChainSummary
  | .ok chain wei symbol tokens =>
      ⟨if symbol = "" then upperStr chain else symbol,
        fix6 ((wei : ℚ) / 1000000000000000000), tokens.length⟩
  | .err chain _ => ⟨upperStr chain, fix6 0, 0⟩

/-- One iteration of the `for (const c of fetched.chains)` loop: entries with
a falsy `chain` are skipped. -/
def summStep (acc : List (String × ChainSummary)) (c : ChainEntry) :
    List (String × ChainSummary) :=
  if c.chainId = "" then acc else upsert acc c.chainId (summVal c)

/-- `summarizeWalletCounts(fetched)`. -/
def summarizeWalletCounts (f : Fetched) : SummaryResult :=
  match f.chains with
  | none => .noData
  | some cs => .data f.address (cs.foldl summStep [])

/-! ### The canned fallback responder `getFallbackResponse` -/

def helpResponse : String :=
  "🔄 **Fallback AI Response - Help**\n\n**Available Commands in Fallback Mode:**\n\n**Wallet Analysis:**\n• \"Analyze wallet 0x1234...\" - Single chain analysis\n• \"Multi-chain wallet 0x1234...\" - All chains analysis\n\n**Portfolio Tracking:**\n• \"Portfolio 0x1234...\" - Comprehensive portfolio analysis\n• \"All chains portfolio 0x1234...\" - Multi-chain portfolio\n\n**NFT Analysis:**\n• \"NFTs 0x1234...\" - NFT collection analysis\n• \"Multi-chain NFTs 0x1234...\" - All chains NFT analysis\n\n**Blockchain Info:**\n• \"Ethereum info\" - Chain information\n• \"Gas prices\" - Current gas fees\n• \"Supported chains\" - Available networks\n\n**Status:** Fallback Mode Active\n*I can still provide real blockchain data using Tatum APIs!*"

def supportedChainsResponse : String :=
  "🔄 **Fallback AI Response - Supported Chains**\n\n**Available Blockchains:**\n• **Ethereum (ETH)** - Mainnet\n• **Polygon (MATIC)** - Layer 2\n• **BNB Smart Chain (BNB)** - Binance Chain\n• **Arbitrum (ETH)** - Layer 2\n• **Base (ETH)** - Coinbase Layer 2\n• **Optimism (ETH)** - Layer 2\n\n**Features Available:**\n• Wallet balance checking\n• Token portfolio analysis\n• NFT collection tracking\n• Gas price monitoring\n• Multi-chain support\n\n**Status:** Fallback Mode Active\n*All data comes from real blockchain via Tatum APIs!*"

def systemFallbackResponse : String :=
  "🔄 **Fallback AI Response - System Status**\n\n**Current Status:**\n• **Gemini AI:** Fallback Mode\n• **Tatum APIs:** Active ✅\n• **Multi-Chain Support:** Available ✅\n• **Real-time Data:** Available ✅\n\n**What\x27s Working:**\n• Wallet analysis across all chains\n• Portfolio tracking and risk analysis\n• NFT collection analysis\n• Gas price monitoring\n• Blockchain information\n\n**What\x27s Limited:**\n• Advanced AI analysis (using fallback)\n• Gemini-specific features\n\n*I\x27m still fully functional for blockchain analysis!*"

def defaultFallbackResponse (message : String) : String :=
  "🔄 **Fallback AI Response**\n\n**Your Query:** \"" ++ message ++
  "\"\n\nI\x27m currently operating in fallback mode due to Gemini AI connectivity issues. However, I can still provide comprehensive blockchain analysis:\n\n**Available Features:**\n• **Multi-Chain Wallet Analysis** - Check balances across 6 chains\n• **Portfolio Tracking** - Complete portfolio analysis with risk assessment\n• **NFT Analysis** - Multi-chain NFT collection tracking\n• **Real-time Data** - Live blockchain data via Tatum APIs\n• **Gas Price Monitoring** - Current network fees\n\n**Example Commands:**\n• \"Analyze wallet 0x1234...\"\n• \"Multi-chain portfolio 0x1234...\"\n• \"NFTs 0x1234...\"\n• \"Supported chains\"\n\n**Status:** Fallback Mode Active\n*I\x27m still fully functional for blockchain analysis!*"

/-- `getFallbackResponse(message)`: canned reply picked by sub-keyword. -/
def getFallbackResponse (message : String) : String :=
  let lower := lcList message
  if inc lower "help" || inc lower "what can you do" then helpResponse
  else if inc lower "supported" || inc lower "chains" || inc lower "networks" then
    supportedChainsResponse
  else if inc lower "status" || inc lower "health" then systemFallbackResponse
  else defaultFallbackResponse message

/-! ### External calls as oracles -/

/-- Outcomes of the external calls one chat turn can make.  A function value
gives the outcome per chain of the corresponding Tatum request; `probe` is the
Gemini test request a `restart` would run; `generate` is the grounded Gemini
chat call, keyed by the prompt. -/
structure Oracles where
  gasRpc : String → Except String Nat
  probe : Except String String
  generate : String → Except String String
  nativeRpc : String → Except String Nat
  tokenRpc : String → Except String (List String)

/-- `getGasPrice(chain)`: convert the RPC hex result from wei to Gwei with
`Math.round`; any error is caught inside and becomes `0`. -/
def getGasPrice (gasRpc : String → Except String Nat) (chain : String) : Nat :=
  match gasRpc chain with
  | Except.ok wei => mathRoundNat ((wei : ℚ) / 1000000000)
  | Except.error _ => 0

/-! ### `getGeminiResponse` -/

def chainNameOf (chain : String) : String :=
  match chainConfig chain with
  | some cfg => cfg.name
  | none => ""

/-- `Object.keys(CHAIN_CONFIGS).map(id => name (symbol)).join(', ')`. -/
def chainCatalogLine : String :=
  String.intercalate ", "
    (allChains.map (fun id => chainNameOf id ++ " (" ++ symbolOf id ++ ")"))

/-- The `type` field as it prints inside the prompt. -/
def ctxTypeStr : CtxType → String
  | .portfolio => "portfolio"
  | .nft => "nft"
  | .wallet => "wallet"
  | .chain => "chain"
  | .gas => "gas"
  | .chain_info => "chain_info"
  | .general => "general"

def boolStr : Bool → String
  | true => "true"
  | false => "false"

def jsonOfChainSummary (s : ChainSummary) : String :=
  "\x7b\"nativeSymbol\":\"" ++ s.nativeSymbol ++ "\",\"nativeApprox\":" ++
  jsNumToString s.nativeApprox ++ ",\"tokenCount\":" ++ Nat.repr s.tokenCount ++ "\x7d"

/-- `JSON.stringify` of the summary object (the strings that occur contain no
characters `stringify` would escape). -/
def jsonOfSummary : SummaryResult → String
  | .noData => "\x7b\"note\":\"no data\"\x7d"
  | .data addr chains =>
      "\x7b\"address\":\"" ++ String.mk addr ++ "\",\"chains\":\x7b" ++
      String.intercalate ","
        (chains.map (fun p => "\"" ++ p.1 ++ "\":" ++ jsonOfChainSummary p.2)) ++
      "\x7d\x7d"

/-- `.slice(0, 60000)`. -/
def slice60000 (s : String) : String := String.mk (s.data.take 60000)

/-- The grounded prompt template of `getGeminiResponse`. -/
def buildPrompt (message : String) (context : Context) (summaryJson : String) :
    String :=
  "You are a blockchain analytics AI assistant powered by Gemini. Use ONLY the provided context data to answer. If data is missing, say so briefly.\n            \nUser Query: \"" ++
  message ++ "\"\n\nDetected Context:\n- Type: " ++ ctxTypeStr context.type ++
  "\n- Multi-chain: " ++ boolStr context.multiChain ++
  "\n\nProvided Summary (JSON):\n" ++ summaryJson ++
  "\n\nInstructions:\n- Respond in English.\n- Report per-chain: native balance (approx) and tokenCount only.\n- Do NOT list token addresses or make price assumptions.\n- Keep it short and scannable with bullets.\n\nResponse:"

/-- `getGeminiResponse(message)`: classify, pre-fetch wallet data for wallet
and portfolio queries, build the prompt, call the model; any model failure is
caught and degrades to `getFallbackResponse`.  It reads no supervisor state
and mutates none. -/
def getGeminiResponse (o : Oracles) (message : String) : String :=
  let context := getBlockchainContext message
  let summaryJson :=
    if context.type = CtxType.wallet ∨ context.type = CtxType.portfolio then
      let chains := if context.multiChain then allChains else ["ethereum"]
      let fetched := fetchWalletContext o.nativeRpc o.tokenRpc
        (context.address.getD []) chains
      jsonOfSummary (summarizeWalletCounts fetched)
    else "\x7b\"note\":\"no summary available\"\x7d"
  match o.generate (buildPrompt message context (slice60000 summaryJson)) with
  | Except.ok text => text
  | Except.error _ => getFallbackResponse message

/-! ### `getAIResponse` -/

def systemStatusMsg (m : Status) : String :=
  "System status: server running, MCP: " ++
  (if m.isConnected then "connected" else "not connected") ++
  ", fallback: " ++ (if m.fallbackMode then "on" else "off")

def mcpStatusMsg (m : Status) : String :=
  "MCP status -> connected: " ++ boolStr m.isConnected ++
  ", fallback: " ++ boolStr m.fallbackMode ++ ", lastError: " ++
  (match m.lastError with
   | some e => if e = "" then "none" else e
   | none => "none")

/-- `getAIResponse(message)`: quick-command handlers in source order, then the
Gemini path when a model handle exists and the supervisor is connected, else
the canned fallback.  The only state-mutating branches are `restart mcp`
(which runs `restart()`, its `.catch` already folded into `restart` returning
`false`) and `force fallback`. -/
def getAIResponse (o : Oracles) (w : World) (message : String) : String × World :=
  let lower := lcList message
  let context := getBlockchainContext message
  if context.type = CtxType.gas then
    let chain := context.chain.getD "ethereum"
    let gwei := getGasPrice o.gasRpc chain
    if gwei > 0 then
      ("⛽ Gas price on " ++ upperStr chain ++ ": ~" ++ Nat.repr gwei ++
        " Gwei (estimate)", w)
    else
      ("⛽ Gas price on " ++ upperStr chain ++ ": data unavailable right now.", w)
  else if context.type = CtxType.chain_info then
    ("Supported chains: " ++ chainCatalogLine, w)
  else if inc lower "system status" then
    (systemStatusMsg (getStatus w.sup), w)
  else if inc lower "mcp status" then
    (mcpStatusMsg (getStatus w.sup), w)
  else if inc lower "restart mcp" then
    let r := restart o.probe w
    ((if r.1 then "MCP server restarted successfully."
      else "Failed to restart MCP server."), r.2)
  else if inc lower "force fallback" then
    ("Fallback mode activated.", enableFallbackMode "Forced via chat command" w)
  else if w.sup.geminiModel && w.sup.isConnected then
    (getGeminiResponse o message, w)
  else
    (getFallbackResponse message, w)

/-! ### Invariants of the supervisor machine -/

/-- `Except.isOk` as a plain boolean (success of an external call). -/
def exceptOk {ε α : Type} : Except ε α → Bool
  | .ok _ => true
  | .error _ => false

/-- The connection flags are never simultaneously `true`. -/
def flagInv (w : World) : Prop :=
  w.sup.isConnected = true → w.sup.fallbackMode = false

/-- The live timers are exactly the stored health-check handle. -/
def timerInv (w : World) : Prop :=
  w.timers = (w.sup.healthCheckInterval).elim [] (fun id => [id])

def machineInv (w : World) : Prop := flagInv w ∧ timerInv w

/-! #### Preservation lemmas -/

lemma timerInv_stop {w : World} (h : timerInv w) :
    (stopHealthCheck w).sup.healthCheckInterval = none ∧
      (stopHealthCheck w).timers = [] := by
  unfold timerInv at h
  unfold stopHealthCheck
  cases hh : w.sup.healthCheckInterval with
  | none => rw [hh] at h; simp at h; exact ⟨hh, h⟩
  | some id => rw [hh] at h; simp at h; simp [h]

lemma stop_flags (w : World) :
    (stopHealthCheck w).sup.isConnected = w.sup.isConnected ∧
      (stopHealthCheck w).sup.fallbackMode = w.sup.fallbackMode := by
  unfold stopHealthCheck
  cases w.sup.healthCheckInterval <;> simp

lemma timerInv_stopHealthCheck {w : World} (h : timerInv w) :
    timerInv (stopHealthCheck w) := by
  obtain ⟨h1, h2⟩ := timerInv_stop h
  unfold timerInv
  rw [h1, h2]
  rfl

lemma timerInv_startHealthCheck {w : World} (h : timerInv w) :
    timerInv (startHealthCheck w) := by
  obtain ⟨-, h2⟩ := timerInv_stop h
  unfold startHealthCheck timerInv
  simp [h2]

lemma startHealthCheck_flags (w : World) :
    (startHealthCheck w).sup.isConnected = w.sup.isConnected ∧
      (startHealthCheck w).sup.fallbackMode = w.sup.fallbackMode := by
  unfold startHealthCheck
  obtain ⟨a, b⟩ := stop_flags w
  simp [a, b]

lemma machineInv_start {w : World} (p : Except String String)
    (h : machineInv w) : machineInv (start p w).2 := by
  obtain ⟨-, hT⟩ := h
  cases p with
  | ok t =>
      constructor
      · unfold flagInv start
        obtain ⟨-, hb⟩ := startHealthCheck_flags
          { w with sup := { w.sup with geminiModel := true, isConnected := true
                                       fallbackMode := false, retryCount := 0 } }
        intro _
        simpa using hb
      · unfold start
        apply timerInv_startHealthCheck
        unfold timerInv at hT ⊢
        simpa using hT
  | error e =>
      constructor
      · unfold flagInv start enableFallbackMode
        simp
      · unfold timerInv at hT ⊢
        simpa [start, enableFallbackMode] using hT

lemma machineInv_applyOp {w : World} (op : Op) (h : machineInv w) :
    machineInv (applyOp w op) := by
  cases op with
  | doStart p => exact machineInv_start p h
  | startHC =>
      obtain ⟨hF, hT⟩ := h
      refine ⟨?_, timerInv_startHealthCheck hT⟩
      obtain ⟨a, b⟩ := startHealthCheck_flags w
      unfold applyOp
      unfold flagInv at hF ⊢
      rw [a, b]; exact hF
  | tick p =>
      obtain ⟨hF, hT⟩ := h
      unfold applyOp healthTick
      cases hs : w.sup.healthCheckInterval.isSome with
      | false => simpa [hs] using ⟨hF, hT⟩
      | true =>
          cases hg : w.sup.geminiModel with
          | false => simpa [hs, hg] using ⟨hF, hT⟩
          | true =>
              cases p with
              | ok t => simpa [hs, hg] using ⟨hF, hT⟩
              | error e =>
                  simp only [hs, hg, if_true]
                  constructor
                  · unfold flagInv enableFallbackMode; simp
                  · unfold timerInv at hT ⊢
                    simpa [enableFallbackMode] using hT
  | enableFallback r =>
      obtain ⟨-, hT⟩ := h
      constructor
      · unfold applyOp flagInv enableFallbackMode; simp
      · unfold timerInv at hT ⊢
        simpa [applyOp, enableFallbackMode] using hT
  | stopHC =>
      obtain ⟨hF, hT⟩ := h
      refine ⟨?_, timerInv_stopHealthCheck hT⟩
      unfold applyOp
      obtain ⟨a, b⟩ := stop_flags w
      unfold flagInv at hF ⊢
      rw [a, b]; exact hF
  | doRestart p =>
      obtain ⟨hF, hT⟩ := h
      unfold applyOp restart
      apply machineInv_start
      constructor
      · unfold flagInv; simp
      · have h3 := timerInv_stopHealthCheck hT
        unfold timerInv at h3 ⊢
        simpa using h3
  | readStatus => exact h

lemma machineInv_initWorld : machineInv initWorld := by
  constructor
  · intro h; simp [initWorld, initSup] at h
  · unfold timerInv initWorld initSup; rfl

lemma machineInv_foldl (ops : List Op) :
    ∀ w : World, machineInv w → machineInv (ops.foldl applyOp w) := by
  induction ops with
  | nil => intro w h; exact h
  | cons op rest ih =>
      intro w h
      exact ih (applyOp w op) (machineInv_applyOp op h)

lemma machineInv_run (ops : List Op) : machineInv (run ops) :=
  machineInv_foldl ops initWorld machineInv_initWorld

lemma start_fallback_false_probe_ok {p : Except String String} {w : World}
    (h : (start p w).2.sup.fallbackMode = false) : exceptOk p = true := by
  cases p with
  | ok t => rfl
  | error e =>
      exfalso
      simp [start, enableFallbackMode] at h

/-- A `getAIResponse` turn leaves the world unchanged except in its
`restart mcp` and `force fallback` branches. -/
lemma getAIResponse_state (o : Oracles) (w : World) (msg : String) :
    (getAIResponse o w msg).2 = w ∨
    (getAIResponse o w msg).2 = (restart o.probe w).2 ∨
    (getAIResponse o w msg).2 = enableFallbackMode "Forced via chat command" w := by
  simp only [getAIResponse]
  by_cases h1 : (getBlockchainContext msg).type = CtxType.gas
  · simp only [if_pos h1]
    split_ifs <;> simp
  simp only [if_neg h1]
  by_cases h2 : (getBlockchainContext msg).type = CtxType.chain_info
  · simp only [if_pos h2]; simp
  simp only [if_neg h2]
  by_cases h3 : inc (lcList msg) "system status" = true
  · simp only [if_pos h3]; simp
  simp only [if_neg h3]
  by_cases h4 : inc (lcList msg) "mcp status" = true
  · simp only [if_pos h4]; simp
  simp only [if_neg h4]
  by_cases h5 : inc (lcList msg) "restart mcp" = true
  · simp only [if_pos h5]; simp
  simp only [if_neg h5]
  by_cases h6 : inc (lcList msg) "force fallback" = true
  · simp only [if_pos h6]; simp
  simp only [if_neg h6]
  split_ifs <;> simp

lemma healthTick_fallback {w : World} (p : Except String String)
    (hf : w.sup.fallbackMode = true) :
    (healthTick p w).sup.fallbackMode = true := by
  unfold healthTick
  cases hs : w.sup.healthCheckInterval.isSome with
  | false => simpa [hs] using hf
  | true =>
      cases hg : w.sup.geminiModel with
      | false => simpa [hs, hg] using hf
      | true =>
          cases p with
          | ok t => simpa [hs, hg] using hf
          | error e => simp [hs, hg, enableFallbackMode]

lemma fallback_preserved_op {w : World} {op : Op} (hf : w.sup.fallbackMode = true)
    (hop : ∀ p, op = Op.doStart p ∨ op = Op.doRestart p → exceptOk p = false) :
    (applyOp w op).sup.fallbackMode = true := by
  cases op with
  | doStart p =>
      cases p with
      | ok t => exact absurd (hop _ (Or.inl rfl)) (by simp [exceptOk])
      | error e => simp [applyOp, start, enableFallbackMode]
  | doRestart p =>
      cases p with
      | ok t => exact absurd (hop _ (Or.inr rfl)) (by simp [exceptOk])
      | error e => simp [applyOp, restart, start, enableFallbackMode]
  | startHC => exact (startHealthCheck_flags w).2.trans hf
  | tick p => exact healthTick_fallback p hf
  | enableFallback r => simp [applyOp, enableFallbackMode]
  | stopHC => exact (stop_flags w).2.trans hf
  | readStatus => exact hf

lemma fallback_preserved_run :
    ∀ (ops : List Op) (w : World), w.sup.fallbackMode = true →
      (∀ op ∈ ops, ∀ p, op = Op.doStart p ∨ op = Op.doRestart p →
        exceptOk p = false) →
      (ops.foldl applyOp w).sup.fallbackMode = true := by
  intro ops
  induction ops with
  | nil => intro w hf _; exact hf
  | cons op rest ih =>
      intro w hf hops
      exact ih (applyOp w op)
        (fallback_preserved_op hf (fun p hp => hops op (by simp) p hp))
        (fun o ho p hp => hops o (by simp [ho]) p hp)

lemma exceptOk_iff {ε α : Type} (x : Except ε α) :
    exceptOk x = true ↔ ∃ w, x = Except.ok w := by
  cases x <;> simp [exceptOk]

lemma isErr_chainEntryFor (native : String → Except String Nat)
    (tok : String → Except String (List String)) (c : String) :
    (chainEntryFor native tok c).isErr = !exceptOk (native c) := by
  unfold chainEntryFor
  cases native c <;> rfl

lemma countP_err_allOk (native : String → Except String Nat)
    (tok : String → Except String (List String)) (L : List String)
    (h : ∀ c ∈ L, exceptOk (native c) = true) :
    (L.map (chainEntryFor native tok)).countP ChainEntry.isErr = 0 := by
  induction L with
  | nil => rfl
  | cons a L ih =>
      simp [List.countP_cons, isErr_chainEntryFor, h a (by simp),
        ih (fun c hc => h c (by simp [hc]))]

lemma countP_err_oneBad (native : String → Except String Nat)
    (tok : String → Except String (List String)) (bad e : String)
    (hfail : native bad = Except.error e) :
    ∀ L : List String, L.Nodup → bad ∈ L →
      (∀ c ∈ L, c ≠ bad → exceptOk (native c) = true) →
      (L.map (chainEntryFor native tok)).countP ChainEntry.isErr = 1 := by
  intro L
  induction L with
  | nil => intro _ hmem; simp at hmem
  | cons a L ih =>
      intro hnd hmem hok
      rcases List.mem_cons.mp hmem with rfl | hmem2
      · have hnb : bad ∉ L := (List.nodup_cons.mp hnd).1
        have hall : ∀ c ∈ L, exceptOk (native c) = true := by
          intro c hc
          exact hok c (by simp [hc]) (fun hceq => hnb (hceq ▸ hc))
        simp [List.countP_cons, isErr_chainEntryFor, hfail, exceptOk,
          countP_err_allOk native tok L hall]
      · have hab : a ≠ bad := by
          rintro rfl
          exact (List.nodup_cons.mp hnd).1 hmem2
        have ha := hok a (by simp) hab
        simp [List.countP_cons, isErr_chainEntryFor, ha,
          ih (List.nodup_cons.mp hnd).2 hmem2
            (fun c hc hne => hok c (by simp [hc]) hne)]

lemma classifyNoAddress_address (l : List Char) :
    (classifyNoAddress l).address = none := by
  unfold classifyNoAddress
  split_ifs <;> rfl

lemma classifyAddress_multiChain (l a : List Char) :
    ((classifyAddress l a).multiChain = true ↔
      (isMultiChainMsg l = true ∨
       ((classifyAddress l a).type = CtxType.portfolio ∧ inc l "portfolio" = true) ∨
       ((classifyAddress l a).type = CtxType.nft ∧ inc l "nft" = true) ∨
       ((classifyAddress l a).type = CtxType.wallet ∧ inc l "wallet" = true))) := by
  unfold classifyAddress
  split_ifs with h1 h2 h3
  · simp
  · simp
  · simp
  · simp at h3
    simp [h3.1]

/-! ## Theorems for the checked claims -/

/-- **C1.** For every state of the supervisor reachable from the freshly
constructed state by any sequence of `start()`, health-check ticks,
`enableFallbackMode(reason)`, `stopHealthCheck()`, `restart()` and
`getStatus()` calls, the flags `isConnected` and `fallbackMode` are never both
`true`: at least one of them is `false`. -/
theorem c1_connected_fallback_never_both (ops : List Op) :
    (run ops).sup.isConnected = false ∨ (run ops).sup.fallbackMode = false := by
  cases hc : (run ops).sup.isConnected with
  | false => exact Or.inl rfl
  | true => exact Or.inr ((machineInv_run ops).1 hc)

/-- **C2** (code bug).  The message `"Show gas price on Ethereum"` — the gas
scenario of the spec, of the README command list and of the source comment
`// 5) Show gas price on Ethereum` — is classified as a chain-specific query
(`type = 'chain'`), because `getBlockchainContext` tests the `'ethereum'`
keyword before the gas keywords.  The gas handler of `getAIResponse` therefore
never runs for it: even with the gas fetcher returning 42 Gwei the produced
response does not contain `"42 Gwei"` (in fallback mode it is the canned
default response), whereas a message that does reach the gas classification
(`"gas fees"`) produces the `~42 Gwei` estimate with the uppercased chain. -/
theorem c2_gas_message_misrouted :
    (getBlockchainContext "Show gas price on Ethereum").type = CtxType.chain ∧
    ((getBlockchainContext "Show gas price on Ethereum").type = CtxType.gas ↔ False) ∧
    getGasPrice (fun _ => Except.ok 42000000000) "ethereum" = 42 ∧
    hasRun "42 Gwei".data
      (getAIResponse
        ⟨fun _ => Except.ok 42000000000, Except.error "down",
          fun _ => Except.error "down", fun _ => Except.ok 0, fun _ => Except.ok []⟩
        (start (Except.error "connect ECONNREFUSED") initWorld).2
        "Show gas price on Ethereum").1.data = false ∧
    (getAIResponse
        ⟨fun _ => Except.ok 42000000000, Except.error "down",
          fun _ => Except.error "down", fun _ => Except.ok 0, fun _ => Except.ok []⟩
        (start (Except.error "connect ECONNREFUSED") initWorld).2
        "gas fees").1 = "⛽ Gas price on ETHEREUM: ~42 Gwei (estimate)" := by
  refine ⟨by decide, by decide, ?_, by decide, ?_⟩
  · norm_num [getGasPrice, mathRoundNat]; decide
  · have h42 : getGasPrice (fun _ => Except.ok 42000000000) "ethereum" = 42 := by
      norm_num [getGasPrice, mathRoundNat]; decide
    simp only [getAIResponse]
    rw [if_pos (by decide)]
    have hc : (getBlockchainContext "gas fees").chain.getD "ethereum" = "ethereum" := by
      decide
    rw [hc, h42]
    decide

/-- **C3** (counterexample).  `"wallet 0xaaaa…"` carries an address, contains
none of the fixed multi-chain phrases and no portfolio/NFT keyword, classifies
into the balance category (`type = 'wallet'`) — yet `multiChain` is `true`,
because the wallet branch also ORs in `lowerMessage.includes('wallet')`. -/
theorem c3_balance_multichain_counterexample :
    (getBlockchainContext
        "wallet 0xaaaaaaaaaaaaaaaaaaaaaaaaaaaaaaaaaaaaaaaa").type = CtxType.wallet ∧
    (getBlockchainContext
        "wallet 0xaaaaaaaaaaaaaaaaaaaaaaaaaaaaaaaaaaaaaaaa").address.isSome = true ∧
    isMultiChainMsg
        (lcList "wallet 0xaaaaaaaaaaaaaaaaaaaaaaaaaaaaaaaaaaaaaaaa") = false ∧
    inc (lcList "wallet 0xaaaaaaaaaaaaaaaaaaaaaaaaaaaaaaaaaaaaaaaa")
        "portfolio" = false ∧
    inc (lcList "wallet 0xaaaaaaaaaaaaaaaaaaaaaaaaaaaaaaaaaaaaaaaa") "nft" = false ∧
    (getBlockchainContext
        "wallet 0xaaaaaaaaaaaaaaaaaaaaaaaaaaaaaaaaaaaaaaaa").multiChain = true := by
  decide

/-- **C3** (amended).  For every message carrying a 0x-prefixed 40-hex
address, `multiChain` is `true` if and only if the message contains one of the
fixed multi-chain phrases, OR the category is portfolio and `'portfolio'`
occurs, OR the category is NFT and `'nft'` occurs, OR the category is
balance/wallet and `'wallet'` occurs. -/
theorem c3_multichain_characterization (msg : String)
    (h : (getBlockchainContext msg).address.isSome = true) :
    ((getBlockchainContext msg).multiChain = true ↔
      (isMultiChainMsg (lcList msg) = true ∨
       ((getBlockchainContext msg).type = CtxType.portfolio ∧
         inc (lcList msg) "portfolio" = true) ∨
       ((getBlockchainContext msg).type = CtxType.nft ∧
         inc (lcList msg) "nft" = true) ∨
       ((getBlockchainContext msg).type = CtxType.wallet ∧
         inc (lcList msg) "wallet" = true))) := by
  simp only [getBlockchainContext] at h ⊢
  cases hf : findAddr (lcList msg) with
  | none =>
      rw [hf] at h
      have h2 : (classifyNoAddress (lcList msg)).address.isSome = true := h
      rw [classifyNoAddress_address] at h2
      exact absurd h2 (by simp)
  | some a =>
      exact classifyAddress_multiChain (lcList msg) a

/-- Witness for C3 (amended), at the spec scenario message
`"Check wallet 0xabc… across all chains"`. -/
theorem c3_multichain_characterization_witness :
    ((getBlockchainContext
        "Check wallet 0xabcabcabcabcabcabcabcabcabcabcabcabcabc1 across all chains").multiChain = true ↔
      (isMultiChainMsg (lcList
          "Check wallet 0xabcabcabcabcabcabcabcabcabcabcabcabcabc1 across all chains") = true ∨
       ((getBlockchainContext
          "Check wallet 0xabcabcabcabcabcabcabcabcabcabcabcabcabc1 across all chains").type = CtxType.portfolio ∧
         inc (lcList
          "Check wallet 0xabcabcabcabcabcabcabcabcabcabcabcabcabc1 across all chains") "portfolio" = true) ∨
       ((getBlockchainContext
          "Check wallet 0xabcabcabcabcabcabcabcabcabcabcabcabcabc1 across all chains").type = CtxType.nft ∧
         inc (lcList
          "Check wallet 0xabcabcabcabcabcabcabcabcabcabcabcabcabc1 across all chains") "nft" = true) ∨
       ((getBlockchainContext
          "Check wallet 0xabcabcabcabcabcabcabcabcabcabcabcabcabc1 across all chains").type = CtxType.wallet ∧
         inc (lcList
          "Check wallet 0xabcabcabcabcabcabcabcabcabcabcabcabcabc1 across all chains") "wallet" = true))) :=
  c3_multichain_characterization
    "Check wallet 0xabcabcabcabcabcabcabcabcabcabcabcabcabc1 across all chains"
    (by decide)

/-- **C4.** `start()` always returns a boolean and never raises: when it
returns `true` the state has `isConnected = true` and `fallbackMode = false`;
when it returns `false` the state has `isConnected = false` and
`fallbackMode = true`, and `getStatus().lastError` is a non-empty string. -/
theorem c4_start_outcome (p : Except String String) (w : World) :
    ((start p w).1 = true →
        (start p w).2.sup.isConnected = true ∧
        (start p w).2.sup.fallbackMode = false) ∧
    ((start p w).1 = false →
        (start p w).2.sup.isConnected = false ∧
        (start p w).2.sup.fallbackMode = true ∧
        ∃ e, (getStatus (start p w).2.sup).lastError = some e ∧ e ≠ "") := by
  cases p with
  | ok t =>
      refine ⟨fun _ => ?_, fun hc => by simp [start] at hc⟩
      unfold start
      obtain ⟨a, b⟩ := startHealthCheck_flags
        { w with sup := { w.sup with geminiModel := true, isConnected := true
                                     fallbackMode := false, retryCount := 0 } }
      exact ⟨by rw [a], by rw [b]⟩
  | error e =>
      refine ⟨fun hc => by simp [start] at hc, fun _ => ?_⟩
      refine ⟨by simp [start, enableFallbackMode],
              by simp [start, enableFallbackMode],
              "Gemini initialization failed: " ++ e,
              by simp [start, enableFallbackMode, getStatus], ?_⟩
      intro h
      have h2 := congrArg String.length h
      simp [String.length_append] at h2
      exact absurd h2.1 (by decide)

/-- Witness for C4: a successful probe connects, a failed probe produces
fallback mode from the initial state. -/
theorem c4_start_outcome_witness :
    (start (Except.ok "I am working") initWorld).2.sup.isConnected = true ∧
    (start (Except.error "boom") initWorld).2.sup.fallbackMode = true :=
  ⟨((c4_start_outcome (Except.ok "I am working") initWorld).1 (by decide)).1,
   ((c4_start_outcome (Except.error "boom") initWorld).2 (by decide)).2.1⟩

/-- **C5** (counterexample).  A message whose address appears with uppercase
hex digits: `"portfolio 0xABCDEF…"` classifies as portfolio with
`multiChain = true`, but the `address` field is the lowercased match
`"0xabcdef…"` — not the address exactly as it appears in the message, because
the pattern is matched against `message.toLowerCase()`. -/
theorem c5_portfolio_address_counterexample :
    (getBlockchainContext
        "portfolio 0xABCDEFABCDEFABCDEFABCDEFABCDEFABCDEFABCD").type = CtxType.portfolio ∧
    (getBlockchainContext
        "portfolio 0xABCDEFABCDEFABCDEFABCDEFABCDEFABCDEFABCD").multiChain = true ∧
    findAddrAny "portfolio 0xABCDEFABCDEFABCDEFABCDEFABCDEFABCDEFABCD".data =
      some "0xABCDEFABCDEFABCDEFABCDEFABCDEFABCDEFABCD".data ∧
    (getBlockchainContext
        "portfolio 0xABCDEFABCDEFABCDEFABCDEFABCDEFABCDEFABCD").address =
      some "0xabcdefabcdefabcdefabcdefabcdefabcdefabcd".data ∧
    (getBlockchainContext
        "portfolio 0xABCDEFABCDEFABCDEFABCDEFABCDEFABCDEFABCD").address ≠
      some "0xABCDEFABCDEFABCDEFABCDEFABCDEFABCDEFABCD".data := by
  refine ⟨by decide, by decide, by decide, by decide, by decide⟩

/-- **C5** (amended).  For every message containing the word `portfolio` and a
0x-prefixed 40-hex address, classification yields `type = portfolio`,
`multiChain = true`, `chain = ethereum`, and the `address` field holds the
leftmost match of the address pattern against the lowercased message — the
lowercased form of the address as it appears, not necessarily the verbatim
original. -/
theorem c5_portfolio_classification (msg : String) (a : List Char)
    (hp : inc (lcList msg) "portfolio" = true)
    (ha : findAddr (lcList msg) = some a) :
    getBlockchainContext msg =
      { needsData := true, chain := some "ethereum", type := CtxType.portfolio
        address := some a, multiChain := true } := by
  simp only [getBlockchainContext]
  rw [ha]
  simp only [classifyAddress]
  rw [if_pos (by simp [hp])]
  simp [hp]

/-- Witness for C5 (amended) at a concrete all-lowercase portfolio query. -/
theorem c5_portfolio_classification_witness :
    getBlockchainContext "Analyze portfolio 0xd8da6bf26964af9d7eed9e03e53415d37aa96045" =
      { needsData := true, chain := some "ethereum", type := CtxType.portfolio
        address := some "0xd8da6bf26964af9d7eed9e03e53415d37aa96045".data
        multiChain := true } :=
  c5_portfolio_classification
    "Analyze portfolio 0xd8da6bf26964af9d7eed9e03e53415d37aa96045"
    "0xd8da6bf26964af9d7eed9e03e53415d37aa96045".data
    (by decide) (by decide)

/-- **C7.** `restart()` literally performs `stopHealthCheck` (plus the
connection/retry reset) before re-invoking `start()`, and after any finite
sequence of supervisor operations — including repeated `restart()` and
`startHealthCheck` re-arms via successful `start()` — at most one interval
timer is live: timers never accumulate. -/
theorem c7_restart_stops_first_single_timer :
    (∀ (p : Except String String) (w : World),
        restart p w =
          start p { stopHealthCheck w with
            sup := { (stopHealthCheck w).sup with
              isConnected := false, retryCount := 0 } }) ∧
    (∀ ops : List Op, (run ops).timers.length ≤ 1) := by
  constructor
  · intro p w; rfl
  · intro ops
    have h := (machineInv_run ops).2
    unfold timerInv at h
    rw [h]
    cases (run ops).sup.healthCheckInterval <;> simp [Option.elim]

/-- **C9.** Fallback mode is sticky: health-check ticks, `stopHealthCheck` and
further `enableFallbackMode` calls keep `fallbackMode = true`; a failed
`start()` keeps it `true` and never arms a health-check timer (the stored
handle and the live timers are untouched); a `start()` can only clear the flag
when its probe succeeded; a whole `getAIResponse` turn started in fallback
mode can only end with the flag cleared if its `restart mcp` path ran a
successful probe; and across any finite sequence of operations containing no
`start`/`restart` whose probe succeeds, the flag stays `true`. -/
theorem c9_fallback_sticky (w : World) (o : Oracles) (p : Except String String)
    (reason msg e : String) :
    (w.sup.fallbackMode = true →
        (healthTick p w).sup.fallbackMode = true ∧
        (stopHealthCheck w).sup.fallbackMode = true ∧
        (enableFallbackMode reason w).sup.fallbackMode = true) ∧
    ((start (Except.error e) w).2.sup.fallbackMode = true ∧
      (start (Except.error e) w).2.sup.healthCheckInterval =
        w.sup.healthCheckInterval ∧
      (start (Except.error e) w).2.timers = w.timers) ∧
    ((start p w).2.sup.fallbackMode = false → exceptOk p = true) ∧
    (w.sup.fallbackMode = true →
        (getAIResponse o w msg).2.sup.fallbackMode = false →
        exceptOk o.probe = true) ∧
    (∀ ops : List Op, w.sup.fallbackMode = true →
        (∀ op ∈ ops, ∀ q, op = Op.doStart q ∨ op = Op.doRestart q →
          exceptOk q = false) →
        (ops.foldl applyOp w).sup.fallbackMode = true) := by
  refine ⟨?_, ?_, fun h => start_fallback_false_probe_ok h, ?_,
    fun ops hf hops => fallback_preserved_run ops w hf hops⟩
  · intro hf
    exact ⟨healthTick_fallback p hf, (stop_flags w).2.trans hf,
      by simp [enableFallbackMode]⟩
  · exact ⟨by simp [start, enableFallbackMode],
           by simp [start, enableFallbackMode],
           by simp [start, enableFallbackMode]⟩
  · intro hf hclear
    rcases getAIResponse_state o w msg with h | h | h <;> rw [h] at hclear
    · rw [hf] at hclear; exact Bool.noConfusion hclear
    · exact start_fallback_false_probe_ok (by simpa [restart] using hclear)
    · simp [enableFallbackMode] at hclear

/-- Witness for C9, at a state freshly dropped into fallback mode by a failed
start and an oracle whose restart probe fails. -/
theorem c9_fallback_sticky_witness :
    (healthTick (Except.error "down")
        (start (Except.error "boom") initWorld).2).sup.fallbackMode = true :=
  ((c9_fallback_sticky (start (Except.error "boom") initWorld).2
      ⟨fun _ => Except.ok 0, Except.error "down", fun _ => Except.error "down",
        fun _ => Except.ok 0, fun _ => Except.ok []⟩
      (Except.error "down") "r" "hello" "err").1 (by decide)).1

/-- **C6.** When exactly one of the six chains fails its native-balance fetch,
`fetchWalletContext` still returns (it cannot raise): its `chains` array has
six entries, exactly one of which is the `{ chain, error }` record of the
failing chain, and each of the other five chains contributes its own success
entry computed from its own fetch results — siblings are unaffected. -/
theorem c6_single_chain_failure_isolated
    (native : String → Except String Nat)
    (tok : String → Except String (List String))
    (address : List Char) (bad e : String)
    (hbad : bad ∈ allChains) (hfail : native bad = Except.error e)
    (hok : ∀ c ∈ allChains, c ≠ bad → exceptOk (native c) = true) :
    (fetchWalletContext native tok address allChains).chains =
      some (allChains.map (chainEntryFor native tok)) ∧
    (allChains.map (chainEntryFor native tok)).length = 6 ∧
    (allChains.map (chainEntryFor native tok)).countP ChainEntry.isErr = 1 ∧
    (allChains.map (chainEntryFor native tok)).countP
      (fun x => !ChainEntry.isErr x) = 5 ∧
    ChainEntry.err bad e ∈ allChains.map (chainEntryFor native tok) ∧
    (∀ c ∈ allChains, c ≠ bad → ∃ w, native c = Except.ok w ∧
      ChainEntry.ok c w (symbolOf c) (tokenListOf tok c) ∈
        allChains.map (chainEntryFor native tok)) := by
  have hnd : allChains.Nodup := by decide
  have h1 := countP_err_oneBad native tok bad e hfail allChains hnd hbad hok
  refine ⟨rfl, rfl, h1, ?_, ?_, ?_⟩
  · have hlen := List.length_eq_countP_add_countP ChainEntry.isErr
      (allChains.map (chainEntryFor native tok))
    have hf : (fun a : ChainEntry => decide ¬(ChainEntry.isErr a = true)) =
        fun a : ChainEntry => !ChainEntry.isErr a := by
      funext a
      cases hh : ChainEntry.isErr a <;> simp [hh]
    rw [hf, h1] at hlen
    have h6 : (allChains.map (chainEntryFor native tok)).length = 6 := rfl
    omega
  · exact List.mem_map.mpr ⟨bad, hbad, by simp [chainEntryFor, hfail]⟩
  · intro c hc hne
    obtain ⟨w, hw⟩ := (exceptOk_iff (native c)).mp (hok c hc hne)
    exact ⟨w, hw, List.mem_map.mpr ⟨c, hc, by simp [chainEntryFor, hw]⟩⟩

/-- Witness for C6 with polygon failing and the five siblings succeeding. -/
theorem c6_single_chain_failure_isolated_witness :
    (allChains.map (chainEntryFor
        (fun c => if c = "polygon" then Except.error "boom" else Except.ok 7)
        (fun _ => Except.ok ["t1", "t2"]))).countP ChainEntry.isErr = 1 ∧
    (allChains.map (chainEntryFor
        (fun c => if c = "polygon" then Except.error "boom" else Except.ok 7)
        (fun _ => Except.ok ["t1", "t2"]))).countP
      (fun x => !ChainEntry.isErr x) = 5 ∧
    ChainEntry.err "polygon" "boom" ∈ allChains.map (chainEntryFor
        (fun c => if c = "polygon" then Except.error "boom" else Except.ok 7)
        (fun _ => Except.ok ["t1", "t2"])) :=
  ⟨(c6_single_chain_failure_isolated
      (fun c => if c = "polygon" then Except.error "boom" else Except.ok 7)
      (fun _ => Except.ok ["t1", "t2"])
      "0xd8da6bf26964af9d7eed9e03e53415d37aa96045".data "polygon" "boom"
      (by decide) (by rfl) (by decide)).2.2.1,
   (c6_single_chain_failure_isolated
      (fun c => if c = "polygon" then Except.error "boom" else Except.ok 7)
      (fun _ => Except.ok ["t1", "t2"])
      "0xd8da6bf26964af9d7eed9e03e53415d37aa96045".data "polygon" "boom"
      (by decide) (by rfl) (by decide)).2.2.2.1,
   (c6_single_chain_failure_isolated
      (fun c => if c = "polygon" then Except.error "boom" else Except.ok 7)
      (fun _ => Except.ok ["t1", "t2"])
      "0xd8da6bf26964af9d7eed9e03e53415d37aa96045".data "polygon" "boom"
      (by decide) (by rfl) (by decide)).2.2.2.2.1⟩

/-- **C8** (counterexample).  For `1500000000000000000` wei on an 18-decimals
chain, the wallet-balance route displays the string `"1.500000"` (six decimal
places, trailing zeros kept), but the wallet-context summary stores
`nativeApprox = Number((1.5).toFixed(6))`, the *number* `1.5 = 3/2`, whose
display (in `JSON.stringify` or any number-to-string) is `"1.5"` — the
trailing zeros are not preserved in the `nativeApprox` field. -/
theorem c8_native_display_counterexample :
    walletBalanceDisplay 1500000000000000000 "ethereum" = "1.500000" ∧
    summarizeWalletCounts (fetchWalletContext (fun _ => Except.ok 1500000000000000000)
        (fun _ => Except.ok []) "0xd8da6bf26964af9d7eed9e03e53415d37aa96045".data
        ["ethereum"]) =
      SummaryResult.data "0xd8da6bf26964af9d7eed9e03e53415d37aa96045".data
        [("ethereum", ⟨"ETH", 3 / 2, 0⟩)] ∧
    jsNumToString (3 / 2) = "1.5" ∧
    jsNumToString (3 / 2) ≠ "1.500000" := by
  have hfix : fix6 ((1500000000000000000 : ℚ) / 1000000000000000000) = 3 / 2 := by
    norm_num [fix6, fix6Int]
  have hjs : jsNumToString (3 / 2) = "1.5" := by
    norm_num [jsNumToString]; rfl
  refine ⟨?_, ?_, hjs, ?_⟩
  · norm_num [walletBalanceDisplay, decimalsOf, chainConfig, toFixed6Str, fix6Int]
    rfl
  · have hs : summarizeWalletCounts (fetchWalletContext
        (fun _ => Except.ok 1500000000000000000) (fun _ => Except.ok [])
        "0xd8da6bf26964af9d7eed9e03e53415d37aa96045".data ["ethereum"]) =
        SummaryResult.data "0xd8da6bf26964af9d7eed9e03e53415d37aa96045".data
          [("ethereum",
            ⟨"ETH", fix6 ((1500000000000000000 : ℚ) / 1000000000000000000), 0⟩)] := rfl
    rw [hs, hfix]
  · rw [hjs]
    decide

/-- **C8** (amended).  Converting `1500000000000000000` wei with 18 decimals
yields the display string `"1.500000"` in the wallet-balance route; the
wallet-context summary's `nativeApprox` holds the numerically equal value
`3/2` (the result of `Number(x.toFixed(6))`, rounded to six decimals), which
displays as `"1.5"` — the value agrees, the six-decimal formatting survives
only in the route's string. -/
theorem c8_native_conversion_amended :
    walletBalanceDisplay 1500000000000000000 "ethereum" = "1.500000" ∧
    fix6 ((1500000000000000000 : ℚ) / 1000000000000000000) = 3 / 2 ∧
    toFixed6Str ((1500000000000000000 : ℚ) / 10 ^ 18) = "1.500000" ∧
    summarizeWalletCounts (fetchWalletContext (fun _ => Except.ok 1500000000000000000)
        (fun _ => Except.ok []) "0xd8da6bf26964af9d7eed9e03e53415d37aa96045".data
        ["ethereum"]) =
      SummaryResult.data "0xd8da6bf26964af9d7eed9e03e53415d37aa96045".data
        [("ethereum", ⟨"ETH", 3 / 2, 0⟩)] ∧
    jsNumToString (3 / 2) = "1.5" := by
  have hfix : fix6 ((1500000000000000000 : ℚ) / 1000000000000000000) = 3 / 2 := by
    norm_num [fix6, fix6Int]
  refine ⟨?_, hfix, ?_, ?_, ?_⟩
  · norm_num [walletBalanceDisplay, decimalsOf, chainConfig, toFixed6Str, fix6Int]
    rfl
  · norm_num [toFixed6Str, fix6Int]
    rfl
  · have hs : summarizeWalletCounts (fetchWalletContext
        (fun _ => Except.ok 1500000000000000000) (fun _ => Except.ok [])
        "0xd8da6bf26964af9d7eed9e03e53415d37aa96045".data ["ethereum"]) =
        SummaryResult.data "0xd8da6bf26964af9d7eed9e03e53415d37aa96045".data
          [("ethereum",
            ⟨"ETH", fix6 ((1500000000000000000 : ℚ) / 1000000000000000000), 0⟩)] := rfl
    rw [hs, hfix]
  · norm_num [jsNumToString]
    rfl

/-- **C10** (counterexample).  An errored fetch entry for ethereum summarizes
to `{ nativeSymbol: "ETHEREUM", nativeApprox: 0, tokenCount: 0 }`, while a
genuinely empty ethereum wallet summarizes to `{ nativeSymbol: "ETH",
nativeApprox: 0, tokenCount: 0 }`: the two are distinguishable by their
`nativeSymbol` field, refuting the claimed indistinguishability. -/
theorem c10_errored_vs_zero_counterexample :
    summarizeWalletCounts (fetchWalletContext (fun _ => Except.error "boom")
        (fun _ => Except.ok []) "0xd8da6bf26964af9d7eed9e03e53415d37aa96045".data
        ["ethereum"]) =
      SummaryResult.data "0xd8da6bf26964af9d7eed9e03e53415d37aa96045".data
        [("ethereum", ⟨"ETHEREUM", 0, 0⟩)] ∧
    summarizeWalletCounts (fetchWalletContext (fun _ => Except.ok 0)
        (fun _ => Except.ok []) "0xd8da6bf26964af9d7eed9e03e53415d37aa96045".data
        ["ethereum"]) =
      SummaryResult.data "0xd8da6bf26964af9d7eed9e03e53415d37aa96045".data
        [("ethereum", ⟨"ETH", 0, 0⟩)] ∧
    ((⟨"ETHEREUM", 0, 0⟩ : ChainSummary) ≠ ⟨"ETH", 0, 0⟩) := by
  have hz : fix6 0 = 0 := by norm_num [fix6, fix6Int]
  have hz2 : fix6 ((0 : Nat) / 1000000000000000000 : ℚ) = 0 := by
    norm_num [fix6, fix6Int]
  refine ⟨?_, ?_, by simp⟩
  · simp [summarizeWalletCounts, fetchWalletContext, chainEntryFor, summStep,
      ChainEntry.chainId, upsert, summVal, hz, upperStr]
  · simp [summarizeWalletCounts, fetchWalletContext, chainEntryFor, tokenListOf,
      summStep, ChainEntry.chainId, upsert, summVal, hz, hz2, symbolOf, chainConfig]

/-- **C10** (amended).  A per-chain entry that carries only an `error` field
still yields a summary entry with `nativeApprox = 0` and `tokenCount = 0`;
it is however not indistinguishable from a genuinely empty wallet on that
chain, because its `nativeSymbol` falls back to the uppercased chain id,
which differs from the configured symbol for every supported chain. -/
theorem c10_errored_chain_summary (c e : String) (a : List Char) (hc : c ≠ "") :
    summarizeWalletCounts ⟨a, some [ChainEntry.err c e]⟩ =
      SummaryResult.data a [(c, ⟨upperStr c, 0, 0⟩)] ∧
    (c ∈ allChains → symbolOf c ≠ upperStr c) := by
  constructor
  · have hz : fix6 0 = 0 := by norm_num [fix6, fix6Int]
    simp [summarizeWalletCounts, summStep, ChainEntry.chainId, hc, upsert,
      summVal, hz]
  · intro h
    simp only [allChains, List.mem_cons, List.not_mem_nil, or_false] at h
    rcases h with rfl | rfl | rfl | rfl | rfl | rfl <;> decide

/-- Witness for C10 (amended) at an errored bsc entry: the summary records
`BSC`/0/0 while the configured symbol is `BNB`. -/
theorem c10_errored_chain_summary_witness :
    summarizeWalletCounts
        ⟨"0xd8da6bf26964af9d7eed9e03e53415d37aa96045".data,
          some [ChainEntry.err "bsc" "timeout"]⟩ =
      SummaryResult.data "0xd8da6bf26964af9d7eed9e03e53415d37aa96045".data
        [("bsc", ⟨upperStr "bsc", 0, 0⟩)] ∧
    symbolOf "bsc" ≠ upperStr "bsc" :=
  ⟨(c10_errored_chain_summary "bsc" "timeout"
      "0xd8da6bf26964af9d7eed9e03e53415d37aa96045".data (by decide)).1,
   (c10_errored_chain_summary "bsc" "timeout"
      "0xd8da6bf26964af9d7eed9e03e53415d37aa96045".data (by decide)).2 (by decide)⟩

end ChainLens
